import Mathlib

/-!
Verification of the bug-bash extension repository: the bug-bash-details
saga (single-flight guards, error propagation), the people-picker
identity wrappers, the bug-bash view header status selection, the item
table cell value computation, and the active-work-item reducer.

Sagas are embedded as pure functions from the inputs the handler reads
(the selected status, the outcome of the one remote call it makes) to a
record of the actions it dispatches, whether the remote call happened,
and the error that escapes the handler, if any.
-/

/-- Modelled from the spec: the `LoadStatus` enum lives in `Common/Contracts`,
which is not among the source files; the saga source names the members
`Loading`, `Updating`, `Ready` and `UpdateFailed`, and the spec material
also names `NotLoaded` and `LoadFailed`. -/
inductive LoadStatus
  | NotLoaded
  | Loading
  | Ready
  | LoadFailed
  | Updating
  | UpdateFailed
deriving DecidableEq, Repr

/-- Modelled from the spec: the `ILongText` DTO from `BugBashPro/Shared/Contracts`
(not among the source files); a record id plus its long text payload. Its
shape is irrelevant to the saga, which passes it through opaquely. -/
structure ILongText where
  id : String
  text : String
deriving DecidableEq, Repr

/-- A thrown JavaScript error, of which the saga reads only `message`. -/
structure JsError where
  message : String
deriving DecidableEq, Repr

/-- The actions of `BugBashDetailActions` that the two saga handlers dispatch.
Constructor casing follows the source (`beginLoadBugBashDetails`,
`bugBashDetailsLoaded`, `beginUpdateBugBashDetails`, `BugBashDetailsUpdated`,
`BugBashDetailsUpdateFailed`). -/
inductive BugBashDetailAction
  | beginLoadBugBashDetails (bugBashId : String)
  | bugBashDetailsLoaded (bugBashId : String) (details : ILongText)
  | beginUpdateBugBashDetails (bugBashId : String) (bugBashDetails : ILongText)
  | BugBashDetailsUpdated (bugBashId : String) (updatedDetails : ILongText)
  | BugBashDetailsUpdateFailed (bugBashId : String) (bugBashDetails : ILongText) (error : String)
deriving DecidableEq, Repr

/-- The observable outcome of one run of a saga handler: the actions it put,
whether it reached its remote call, and the error that escaped it, if any. -/
structure SagaRun where
  dispatched : List BugBashDetailAction
  remoteCalled : Bool
  escaped : Option JsError
deriving DecidableEq, Repr

/-- `loadBugBashDetails` from the saga source: select the status for
`bugBashId`; unless it is `Loading` or `Updating`, put
`beginLoadBugBashDetails`, call `fetchBugBashDetailsAsync` (its outcome is
the `fetchResult` argument), and put `bugBashDetailsLoaded`. The call is not
wrapped in try/catch, so a thrown error escapes after the begin action. -/
def loadBugBashDetails (bugBashId : String) (status : LoadStatus)
    (fetchResult : Except JsError ILongText) : SagaRun :=
  if status ≠ LoadStatus.Loading ∧ status ≠ LoadStatus.Updating then
    match fetchResult with
    | Except.ok details =>
        { dispatched := [BugBashDetailAction.beginLoadBugBashDetails bugBashId,
                         BugBashDetailAction.bugBashDetailsLoaded bugBashId details],
          remoteCalled := true
          escaped := none }
    | Except.error e =>
        { dispatched := [BugBashDetailAction.beginLoadBugBashDetails bugBashId],
          remoteCalled := true
          escaped := some e }
  else
    { dispatched := [], remoteCalled := false, escaped := none }

/-- `updateBugBashDetails` from the saga source: select the status for
`bugBashId`; when it is `Ready` or `UpdateFailed`, put
`beginUpdateBugBashDetails`, then try `addOrUpdateDetailsAsync` (its outcome
is the `callResult` argument): on success put `BugBashDetailsUpdated`, on a
thrown error put `BugBashDetailsUpdateFailed` with the error message. -/
def updateBugBashDetails (bugBashId : String) (bugBashDetails : ILongText)
    (status : LoadStatus) (callResult : Except JsError ILongText) : SagaRun :=
  if status = LoadStatus.Ready ∨ status = LoadStatus.UpdateFailed then
    match callResult with
    | Except.ok updatedDetails =>
        { dispatched := [BugBashDetailAction.beginUpdateBugBashDetails bugBashId bugBashDetails,
                         BugBashDetailAction.BugBashDetailsUpdated bugBashId updatedDetails],
          remoteCalled := true
          escaped := none }
    | Except.error e =>
        { dispatched := [BugBashDetailAction.beginUpdateBugBashDetails bugBashId bugBashDetails,
                         BugBashDetailAction.BugBashDetailsUpdateFailed bugBashId bugBashDetails e.message],
          remoteCalled := true
          escaped := none }
  else
    { dispatched := [], remoteCalled := false, escaped := none }

/-! The people-picker wrappers from `Common/ServiceWrappers/IdentityService.ts`.
The host `IVssIdentityService` is embedded as a record of the two query
functions the provider methods under study call; a promise chain
`p.then(f)` over an already-resolved service becomes function application. -/

/-- `IIdentity` from `IdentityService.ts`. -/
structure IIdentity where
  entityId : String
  entityType : String
  originDirectory : String
  originId : String
deriving DecidableEq, Repr

/-- The host `IVssIdentityService`, restricted to the two members the
provider methods under study call. `searchIdentitiesAsync` takes the query,
the optional identity types, operation scopes, query type hint and options,
and yields the resulting identities. -/
structure IVssIdentityService where
  getIdentityMruAsync : List IIdentity
  searchIdentitiesAsync : String → Option (List String) → Option (List String) →
    Option String → Option Unit → List IIdentity

/-- `PeoplePickerProvider.onEmptyInputFocus`: resolve the service, call
`getIdentityMruAsync`, and resolve with the identities unchanged (the source
chains `.then(identities => \x7b return identities; \x7d)`). -/
def onEmptyInputFocus (svc : IVssIdentityService) : List IIdentity :=
  (fun identities => identities) svc.getIdentityMruAsync

/-- `PeoplePickerProvider._onSearchPersona`: build a search request holding
only the query, call `searchIdentitiesAsync` with the request fields (all but
the query being absent), then drop every identity whose `entityId` equals the
`entityId` of some already-selected item. -/
def _onSearchPersona (svc : IVssIdentityService) (searchText : String)
    (items : List IIdentity) : List IIdentity :=
  (svc.searchIdentitiesAsync searchText none none none none).filter
    (fun identity => !(items.any (fun selectedIdentity => selectedIdentity.entityId == identity.entityId)))

/-- `PeoplePickerProvider.onFilterIdentities`: delegate to `_onSearchPersona`
with the selected items, or the empty list when they are absent. -/
def onFilterIdentities (svc : IVssIdentityService) (filter : String)
    (selectedItems : Option (List IIdentity)) : List IIdentity :=
  _onSearchPersona svc filter (match selectedItems with | some items => items | none => [])

/-- `PeoplePickerProvider.getEntityFromUniqueAttribute`: search for the
entity id over user identities in the `ims` and `source` scopes with the
`uid` hint, and resolve with element 0 of the result — which in JavaScript is
`undefined` (here `none`) when the result list is empty. -/
def getEntityFromUniqueAttribute (svc : IVssIdentityService) (entityId : String) :
    Option IIdentity :=
  (svc.searchIdentitiesAsync entityId (some ["user"]) (some ["ims", "source"])
    (some "uid") none).head?

/-- A concrete identity used to evaluate the provider wrappers. -/
def idA : IIdentity :=
  { entityId := "a", entityType := "user", originDirectory := "vsd", originId := "1" }

/-- A second concrete identity used to evaluate the provider wrappers. -/
def idB : IIdentity :=
  { entityId := "b", entityType := "user", originDirectory := "vsd", originId := "2" }

/-- A concrete host service whose MRU and every search yield `[idA, idB]`. -/
def svcDemo : IVssIdentityService :=
  { getIdentityMruAsync := [idA, idB]
    searchIdentitiesAsync := fun _ _ _ _ _ => [idA, idB] }

/-- A concrete host service whose MRU and every search yield nothing. -/
def svcEmpty : IVssIdentityService :=
  { getIdentityMruAsync := []
    searchIdentitiesAsync := fun _ _ _ _ _ => [] }

/-! The header of the bug-bash view (`BugBashViewHeader.tsx`): the rendered
title carries exactly one status chosen from the bug bash and the current
time. Only the status selection is modelled; the surrounding JSX carries no
further data dependence on the bug bash. -/

/-- `IBugBash` restricted to the fields the header title reads: the title and
the schedule bounds consulted by the status helpers. Times are instants on a
discrete clock. -/
structure IBugBash where
  title : String
  startTime : Option Nat
  endTime : Option Nat
deriving DecidableEq, Repr

/-- Modelled from the spec: `isBugBashCompleted` from `BugBashPro/Shared/Helpers`
is not among the source files; per the glossary a bug bash is a time-boxed
event, so it is completed once its end time has passed. -/
def isBugBashCompleted (bugBash : IBugBash) (currentTime : Nat) : Bool :=
  match bugBash.endTime with
  | some endTime => decide (endTime ≤ currentTime)
  | none => false

/-- Modelled from the spec: `isBugBashInProgress` from `BugBashPro/Shared/Helpers`
is not among the source files; per the glossary a bug bash is a time-boxed
event, so it is in progress when it has started and has not yet ended. -/
def isBugBashInProgress (bugBash : IBugBash) (currentTime : Nat) : Bool :=
  (match bugBash.startTime with
   | some startTime => decide (startTime ≤ currentTime)
   | none => true) &&
  (match bugBash.endTime with
   | some endTime => decide (currentTime < endTime)
   | none => true)

/-- The three status texts the header can render. -/
inductive BugBashHeaderStatus
  | Completed
  | InProgress
  | Scheduled
deriving DecidableEq, Repr

/-- The status selection of `onRenderHeaderTitle` from `BugBashViewHeader.tsx`:
`Completed` when `isBugBashCompleted` holds at the current time, else
`InProgress` when `isBugBashInProgress` holds, else `Scheduled`. -/
def onRenderHeaderTitle (bugBash : IBugBash) (currentTime : Nat) : BugBashHeaderStatus :=
  if isBugBashCompleted bugBash currentTime then BugBashHeaderStatus.Completed
  else if isBugBashInProgress bugBash currentTime then BugBashHeaderStatus.InProgress
  else BugBashHeaderStatus.Scheduled

/-! The active-work-item reducer (`activeWorkItemReducer`). -/

/-- Modelled from the spec: `IActiveWorkItemState` from the active-work-item
`Contracts` module is not among the source files. It carries the nine fields
the reducer writes; `restOfState` stands for whatever further fields the
record declares, so that the frame condition is expressible. -/
structure IActiveWorkItemState where
  id : Nat
  rev : Nat
  isNew : Bool
  links : List String
  queryableFields : List String
  sortableFields : List String
  relationTypes : List String
  project : String
  workItemTypeName : String
  restOfState : String
deriving DecidableEq, Repr

/-- Modelled from the spec: the payload of `SetActiveWorkItem`, of which the
reducer destructures exactly nine fields; `restOfPayload` stands for any
further payload fields the destructuring leaves unread. -/
structure SetActiveWorkItemPayload where
  id : Nat
  rev : Nat
  isNew : Bool
  links : List String
  queryableFields : List String
  sortableFields : List String
  relationTypes : List String
  project : String
  workItemTypeName : String
  restOfPayload : String
deriving DecidableEq, Repr

/-- Modelled from the spec: `defaultActiveWorkItemState` from the same
`Contracts` module, a fixed record the reducer substitutes for an undefined
state. Its field values are unconstrained by the claims. -/
def defaultActiveWorkItemState : IActiveWorkItemState :=
  { id := 0, rev := 0, isNew := true, links := [], queryableFields := [],
    sortableFields := [], relationTypes := [], project := "",
    workItemTypeName := "", restOfState := "" }

/-- The `ActiveWorkItemActions` union: `SetActiveWorkItem` as in the source,
and `OtherActionType` standing for every member whose type is not
`SetActiveWorkItem` — the switch in the reducer has no case for them. -/
inductive ActiveWorkItemActions
  | SetActiveWorkItem (payload : SetActiveWorkItemPayload)
  | OtherActionType (tag : String)
deriving DecidableEq, Repr

/-- `activeWorkItemReducer` from the source: `produce` over
`state || defaultActiveWorkItemState`; on `SetActiveWorkItem` the nine
destructured payload fields are written onto the draft; any other action
leaves the draft untouched. -/
def activeWorkItemReducer (state : Option IActiveWorkItemState)
    (action : ActiveWorkItemActions) : IActiveWorkItemState :=
  let draft := state.getD defaultActiveWorkItemState
  match action with
  | ActiveWorkItemActions.SetActiveWorkItem payload =>
      { draft with
        id := payload.id
        rev := payload.rev
        isNew := payload.isNew
        links := payload.links
        queryableFields := payload.queryableFields
        sortableFields := payload.sortableFields
        relationTypes := payload.relationTypes
        project := payload.project
        workItemTypeName := payload.workItemTypeName }
  | ActiveWorkItemActions.OtherActionType _ => draft

/-! The bug-bash item table cell (`onRenderBugBashItemCell`): only the value
computation (the first block of the function) is modelled; the JSX element
chosen afterwards renders that value. -/

/-- The work-item field names the cell renderer reads (`WorkItemFieldNames`
from the hub constants). -/
inductive WorkItemFieldNames
  | ID
  | Title
  | State
  | WorkItemType
  | AssignedTo
  | AreaPath
deriving DecidableEq, Repr

/-- The bug-bash-item field names the cell renderer reads
(`BugBashItemFieldNames` from the hub constants). -/
inductive BugBashItemFieldNames
  | Title
  | Description
  | TeamId
  | CreatedBy
  | CreatedDate
  | RejectedBy
  | RejectReason
  | Status
deriving DecidableEq, Repr

/-- A column key is drawn from `BugBashItemFieldNames | WorkItemFieldNames`. -/
inductive ColumnKey
  | wi (f : WorkItemFieldNames)
  | bb (f : BugBashItemFieldNames)
deriving DecidableEq, Repr

/-- A cell value: JavaScript `undefined`, a string, or a number. -/
inductive CellValue
  | undef
  | str (s : String)
  | num (n : Nat)
deriving DecidableEq, Repr

/-- A tracked work item: its id and its field map (a missing field reads as
`undefined`, which `CellValue.undef` covers). -/
structure WorkItem where
  id : Nat
  fields : WorkItemFieldNames → CellValue

/-- `IBugBashItem` restricted to the fields the cell renderer reads. An item
promoted to a work item carries that work item id. -/
structure IBugBashItem where
  id : String
  bugBashId : String
  workItemId : Option Nat
  title : String
  description : String
  teamId : String
  createdBy : String
  createdDate : Nat
  rejectedBy : String
  rejectReason : String
deriving DecidableEq, Repr

/-- Modelled from the spec: `isWorkItemFieldName` from the hub helpers is not
among the source files; a key is a work-item field name exactly when it is
drawn from `WorkItemFieldNames`. -/
def isWorkItemFieldName : ColumnKey → Bool
  | ColumnKey.wi _ => true
  | ColumnKey.bb _ => false

/-- Modelled from the spec: `isBugBashItemAccepted` from the hub helpers is
not among the source files; per the glossary an item is optionally promoted
to a tracked work item, so it is accepted exactly when it carries a work item
id. -/
def isBugBashItemAccepted (bugBashItem : IBugBashItem) : Bool :=
  bugBashItem.workItemId.isSome

/-- The property read `bugBashItem[key]` for a bug-bash-item field key. The
`Status` entry is never consulted: the cell renderer guards that key away
before reading the item. -/
def bugBashItemField (bugBashItem : IBugBashItem) : BugBashItemFieldNames → CellValue
  | BugBashItemFieldNames.Title => CellValue.str bugBashItem.title
  | BugBashItemFieldNames.Description => CellValue.str bugBashItem.description
  | BugBashItemFieldNames.TeamId => CellValue.str bugBashItem.teamId
  | BugBashItemFieldNames.CreatedBy => CellValue.str bugBashItem.createdBy
  | BugBashItemFieldNames.CreatedDate => CellValue.num bugBashItem.createdDate
  | BugBashItemFieldNames.RejectedBy => CellValue.str bugBashItem.rejectedBy
  | BugBashItemFieldNames.RejectReason => CellValue.str bugBashItem.rejectReason
  | BugBashItemFieldNames.Status => CellValue.undef

/-- The value computation of `onRenderBugBashItemCell`: for a work-item field
key, the value comes from the accepted work item when the item is accepted
and the work item is supplied (the `ID` key reading `bugBashItem.workItemId`
instead), and stays `undefined` otherwise; the bug-bash `Title` key on an
accepted item with a supplied work item reads the work item `Title` field;
every other non-`Status` key reads the bug bash item property; the `Status`
key leaves the value `undefined`. -/
def computeCellValue (key : ColumnKey) (bugBashItem : IBugBashItem)
    (acceptedWorkItem : Option WorkItem) : CellValue :=
  let isAccepted := isBugBashItemAccepted bugBashItem
  match key with
  | ColumnKey.wi f =>
      match acceptedWorkItem with
      | some workItem =>
          if isAccepted then
            if f = WorkItemFieldNames.ID then
              match bugBashItem.workItemId with
              | some workItemId => CellValue.num workItemId
              | none => CellValue.undef
            else workItem.fields f
          else CellValue.undef
      | none => CellValue.undef
  | ColumnKey.bb f =>
      if f = BugBashItemFieldNames.Title ∧ isAccepted ∧ acceptedWorkItem.isSome then
        match acceptedWorkItem with
        | some workItem => workItem.fields WorkItemFieldNames.Title
        | none => CellValue.undef
      else if f ≠ BugBashItemFieldNames.Status then
        bugBashItemField bugBashItem f
      else
        CellValue.undef

/-- A concrete accepted bug bash item (promoted to work item 7). -/
def demoBugBashItem : IBugBashItem :=
  { id := "item1", bugBashId := "bb1", workItemId := some 7,
    title := "raw finding title", description := "desc", teamId := "team1",
    createdBy := "u1", createdDate := 5, rejectedBy := "", rejectReason := "" }

/-- A concrete bug bash item that was never promoted. -/
def demoPendingItem : IBugBashItem :=
  { id := "item2", bugBashId := "bb1", workItemId := none,
    title := "pending title", description := "", teamId := "team2",
    createdBy := "u2", createdDate := 6, rejectedBy := "", rejectReason := "" }

/-- The concrete work item that `demoBugBashItem` was promoted to. -/
def demoWorkItem : WorkItem :=
  { id := 7
    fields := fun f =>
      match f with
      | WorkItemFieldNames.Title => CellValue.str "promoted work item title"
      | WorkItemFieldNames.WorkItemType => CellValue.str "Bug"
      | WorkItemFieldNames.State => CellValue.str "Active"
      | _ => CellValue.undef }

/-- C1: single-flight loading per entity. When the stored status is `Loading`
or `Updating`, `loadBugBashDetails` dispatches nothing and does not call the
remote fetch; otherwise it calls the remote fetch and its first dispatched
action is `beginLoadBugBashDetails`. -/
theorem loadBugBashDetails_single_flight (bugBashId : String) (status : LoadStatus)
    (fetchResult : Except JsError ILongText) :
    ((status = LoadStatus.Loading ∨ status = LoadStatus.Updating) →
      loadBugBashDetails bugBashId status fetchResult =
        { dispatched := [], remoteCalled := false, escaped := none }) ∧
    (status ≠ LoadStatus.Loading → status ≠ LoadStatus.Updating →
      (loadBugBashDetails bugBashId status fetchResult).remoteCalled = true ∧
      ∃ rest, (loadBugBashDetails bugBashId status fetchResult).dispatched =
        BugBashDetailAction.beginLoadBugBashDetails bugBashId :: rest) := by
  constructor
  · rintro (rfl | rfl) <;> simp [loadBugBashDetails]
  · intro h1 h2
    cases fetchResult <;> simp [loadBugBashDetails, h1, h2]

/-- C1 witness: at `Loading` nothing is dispatched and no fetch happens; at
`Ready` the fetch happens and the begin action leads the dispatch list. -/
theorem loadBugBashDetails_single_flight_witness :
    (loadBugBashDetails "bb1" LoadStatus.Loading (Except.ok { id := "bb1", text := "t" }) =
      { dispatched := [], remoteCalled := false, escaped := none }) ∧
    ((loadBugBashDetails "bb1" LoadStatus.Ready (Except.ok { id := "bb1", text := "t" })).remoteCalled = true ∧
      ∃ rest, (loadBugBashDetails "bb1" LoadStatus.Ready (Except.ok { id := "bb1", text := "t" })).dispatched =
        BugBashDetailAction.beginLoadBugBashDetails "bb1" :: rest) :=
  ⟨(loadBugBashDetails_single_flight "bb1" LoadStatus.Loading
      (Except.ok { id := "bb1", text := "t" })).1 (Or.inl rfl),
   (loadBugBashDetails_single_flight "bb1" LoadStatus.Ready
      (Except.ok { id := "bb1", text := "t" })).2 (by decide) (by decide)⟩

/-- C2 counterexample: the claim says every handler catches its remote error;
but `loadBugBashDetails` has no try/catch, so at status `Ready` a fetch that
throws `network error` escapes the handler, and no failure action carrying
the message is dispatched. -/
theorem loadBugBashDetails_error_escapes :
    (loadBugBashDetails "bb1" LoadStatus.Ready
        (Except.error { message := "network error" })).escaped =
      some { message := "network error" } ∧
    (loadBugBashDetails "bb1" LoadStatus.Ready
        (Except.error { message := "network error" })).dispatched =
      [BugBashDetailAction.beginLoadBugBashDetails "bb1"] := by
  decide

/-- C2 amended: only `updateBugBashDetails` catches at the saga boundary — it
never lets an error escape, and a thrown error is stored as its string
message in the dispatched `BugBashDetailsUpdateFailed` action; whereas in
`loadBugBashDetails` a thrown fetch error escapes the handler whenever the
guard let the fetch happen, with no failure action dispatched. -/
theorem saga_error_boundary (bugBashId : String) (bugBashDetails : ILongText)
    (status : LoadStatus) (callResult : Except JsError ILongText) (e : JsError) :
    (updateBugBashDetails bugBashId bugBashDetails status callResult).escaped = none ∧
    ((status = LoadStatus.Ready ∨ status = LoadStatus.UpdateFailed) →
      (updateBugBashDetails bugBashId bugBashDetails status (Except.error e)).dispatched =
        [BugBashDetailAction.beginUpdateBugBashDetails bugBashId bugBashDetails,
         BugBashDetailAction.BugBashDetailsUpdateFailed bugBashId bugBashDetails e.message]) ∧
    (status ≠ LoadStatus.Loading → status ≠ LoadStatus.Updating →
      (loadBugBashDetails bugBashId status (Except.error e)).escaped = some e) := by
  refine ⟨?_, ?_, ?_⟩
  · by_cases h : status = LoadStatus.Ready ∨ status = LoadStatus.UpdateFailed
    · cases callResult <;> simp [updateBugBashDetails, h]
    · simp [updateBugBashDetails, h]
  · intro h
    simp [updateBugBashDetails, h]
  · intro h1 h2
    simp [loadBugBashDetails, h1, h2]

/-- C2 witness: at concrete inputs, the update handler swallows the thrown
error and records its message, and the load handler lets it escape. -/
theorem saga_error_boundary_witness :
    (updateBugBashDetails "bb1" { id := "bb1", text := "d" } LoadStatus.Ready
        (Except.error { message := "boom" })).escaped = none ∧
    (updateBugBashDetails "bb1" { id := "bb1", text := "d" } LoadStatus.Ready
        (Except.error { message := "boom" })).dispatched =
      [BugBashDetailAction.beginUpdateBugBashDetails "bb1" { id := "bb1", text := "d" },
       BugBashDetailAction.BugBashDetailsUpdateFailed "bb1" { id := "bb1", text := "d" } "boom"] ∧
    (loadBugBashDetails "bb1" LoadStatus.Ready
        (Except.error { message := "boom" })).escaped = some { message := "boom" } :=
  ⟨(saga_error_boundary "bb1" { id := "bb1", text := "d" } LoadStatus.Ready
      (Except.error { message := "boom" }) { message := "boom" }).1,
   (saga_error_boundary "bb1" { id := "bb1", text := "d" } LoadStatus.Ready
      (Except.error { message := "boom" }) { message := "boom" }).2.1 (Or.inl rfl),
   (saga_error_boundary "bb1" { id := "bb1", text := "d" } LoadStatus.Ready
      (Except.error { message := "boom" }) { message := "boom" }).2.2 (by decide) (by decide)⟩

/-- C3: when the update guard passes, exactly one of the two outcome actions
follows `beginUpdateBugBashDetails` — `BugBashDetailsUpdated` with the
returned details on success, `BugBashDetailsUpdateFailed` with the thrown
error message on failure — never both and never neither. -/
theorem updateBugBashDetails_outcome (bugBashId : String) (bugBashDetails : ILongText)
    (status : LoadStatus) (callResult : Except JsError ILongText)
    (h : status = LoadStatus.Ready ∨ status = LoadStatus.UpdateFailed) :
    (updateBugBashDetails bugBashId bugBashDetails status callResult).dispatched =
      match callResult with
      | Except.ok updatedDetails =>
          [BugBashDetailAction.beginUpdateBugBashDetails bugBashId bugBashDetails,
           BugBashDetailAction.BugBashDetailsUpdated bugBashId updatedDetails]
      | Except.error e =>
          [BugBashDetailAction.beginUpdateBugBashDetails bugBashId bugBashDetails,
           BugBashDetailAction.BugBashDetailsUpdateFailed bugBashId bugBashDetails e.message] := by
  cases callResult <;> simp [updateBugBashDetails, h]

/-- C3 witness: at status `UpdateFailed`, a successful call dispatches exactly
the begin action followed by `BugBashDetailsUpdated`. -/
theorem updateBugBashDetails_outcome_witness :
    (updateBugBashDetails "bb1" { id := "bb1", text := "d" } LoadStatus.UpdateFailed
        (Except.ok { id := "bb1", text := "d2" })).dispatched =
      [BugBashDetailAction.beginUpdateBugBashDetails "bb1" { id := "bb1", text := "d" },
       BugBashDetailAction.BugBashDetailsUpdated "bb1" { id := "bb1", text := "d2" }] :=
  updateBugBashDetails_outcome "bb1" { id := "bb1", text := "d" } LoadStatus.UpdateFailed
    (Except.ok { id := "bb1", text := "d2" }) (Or.inr rfl)

/-- C4: single-flight update guard per entity. `updateBugBashDetails` reaches
its remote call exactly when the stored status is `Ready` or `UpdateFailed`;
for every other status (`NotLoaded`, `Loading`, `LoadFailed`, `Updating`) it
dispatches nothing; when the guard passes, the first dispatched action is
`beginUpdateBugBashDetails`. -/
theorem updateBugBashDetails_single_flight (bugBashId : String) (bugBashDetails : ILongText)
    (status : LoadStatus) (callResult : Except JsError ILongText) :
    ((updateBugBashDetails bugBashId bugBashDetails status callResult).remoteCalled = true ↔
      (status = LoadStatus.Ready ∨ status = LoadStatus.UpdateFailed)) ∧
    (¬(status = LoadStatus.Ready ∨ status = LoadStatus.UpdateFailed) →
      updateBugBashDetails bugBashId bugBashDetails status callResult =
        { dispatched := [], remoteCalled := false, escaped := none }) ∧
    ((status = LoadStatus.Ready ∨ status = LoadStatus.UpdateFailed) →
      ∃ rest, (updateBugBashDetails bugBashId bugBashDetails status callResult).dispatched =
        BugBashDetailAction.beginUpdateBugBashDetails bugBashId bugBashDetails :: rest) := by
  refine ⟨?_, ?_, ?_⟩
  · by_cases h : status = LoadStatus.Ready ∨ status = LoadStatus.UpdateFailed <;>
      cases callResult <;> simp [updateBugBashDetails, h]
  · intro h
    simp [updateBugBashDetails, h]
  · intro h
    cases callResult <;> simp [updateBugBashDetails, h]

/-- C4 witness: at `Loading` the update is suppressed entirely; at `Ready` the
remote call happens and the begin action leads the dispatch list. -/
theorem updateBugBashDetails_single_flight_witness :
    (updateBugBashDetails "bb1" { id := "bb1", text := "d" } LoadStatus.Loading
        (Except.ok { id := "bb1", text := "d2" })) =
      { dispatched := [], remoteCalled := false, escaped := none } ∧
    ∃ rest, (updateBugBashDetails "bb1" { id := "bb1", text := "d" } LoadStatus.Ready
        (Except.ok { id := "bb1", text := "d2" })).dispatched =
      BugBashDetailAction.beginUpdateBugBashDetails "bb1" { id := "bb1", text := "d" } :: rest :=
  ⟨(updateBugBashDetails_single_flight "bb1" { id := "bb1", text := "d" } LoadStatus.Loading
      (Except.ok { id := "bb1", text := "d2" })).2.1 (by decide),
   (updateBugBashDetails_single_flight "bb1" { id := "bb1", text := "d" } LoadStatus.Ready
      (Except.ok { id := "bb1", text := "d2" })).2.2 (Or.inl rfl)⟩

/-- C5: MRU pass-through — `onEmptyInputFocus` resolves to exactly the list
returned by the host `getIdentityMruAsync`, with no element added, removed,
reordered, or altered. -/
theorem onEmptyInputFocus_passthrough (svc : IVssIdentityService) :
    onEmptyInputFocus svc = svc.getIdentityMruAsync := rfl

/-- C8: `onFilterIdentities` excludes already-selected identities — every
suggested identity has an `entityId` different from that of every selected
item — and absent `selectedItems` behaves as the empty selection. -/
theorem onFilterIdentities_excludes_selected (svc : IVssIdentityService)
    (filter : String) (selectedItems : List IIdentity) :
    (∀ identity ∈ onFilterIdentities svc filter (some selectedItems),
      ∀ selected ∈ selectedItems, identity.entityId ≠ selected.entityId) ∧
    onFilterIdentities svc filter none = onFilterIdentities svc filter (some []) := by
  constructor
  · intro identity hmem selected hsel
    simp only [onFilterIdentities, _onSearchPersona, List.mem_filter,
      Bool.not_eq_eq_eq_not, Bool.not_true, List.any_eq_false, beq_iff_eq] at hmem
    exact fun h => hmem.2 selected hsel (h.symm)
  · rfl

/-- C8 witness: with a service suggesting two identities and the first one
already selected, the suggestion kept has a different `entityId` from the
selected one, and the absent-selection call equals the empty-selection call. -/
theorem onFilterIdentities_excludes_selected_witness :
    (idB ∈ onFilterIdentities svcDemo "q" (some [idA]) ∧ idB.entityId ≠ idA.entityId) ∧
    onFilterIdentities svcDemo "q" none = onFilterIdentities svcDemo "q" (some []) :=
  ⟨⟨by decide,
    (onFilterIdentities_excludes_selected svcDemo "q" [idA]).1 idB (by decide) idA (by decide)⟩,
   (onFilterIdentities_excludes_selected svcDemo "q" [idA]).2⟩

/-- C10: `getEntityFromUniqueAttribute` yields the first element of the
identity search result, and resolves to no identity at all when the search
result is empty, so callers must handle an absent identity. -/
theorem getEntityFromUniqueAttribute_head (svc : IVssIdentityService) (entityId : String) :
    (∀ identity rest,
      svc.searchIdentitiesAsync entityId (some ["user"]) (some ["ims", "source"])
          (some "uid") none = identity :: rest →
        getEntityFromUniqueAttribute svc entityId = some identity) ∧
    (svc.searchIdentitiesAsync entityId (some ["user"]) (some ["ims", "source"])
        (some "uid") none = [] →
      getEntityFromUniqueAttribute svc entityId = none) := by
  constructor
  · intro identity rest h
    simp [getEntityFromUniqueAttribute, h]
  · intro h
    simp [getEntityFromUniqueAttribute, h]

/-- C10 witness: the demo service search yields `idA` first, so the lookup
resolves to `idA`; the empty service search yields nothing, so the lookup
resolves to no identity. -/
theorem getEntityFromUniqueAttribute_head_witness :
    getEntityFromUniqueAttribute svcDemo "a" = some idA ∧
    getEntityFromUniqueAttribute svcEmpty "a" = none :=
  ⟨(getEntityFromUniqueAttribute_head svcDemo "a").1 idA [idB] (by decide),
   (getEntityFromUniqueAttribute_head svcEmpty "a").2 (by decide)⟩

/-- C6: for every bug bash and current time the header renders exactly one of
the three statuses, chosen by fixed priority — `Completed` exactly when
`isBugBashCompleted` holds; `InProgress` exactly when it does not but
`isBugBashInProgress` does; `Scheduled` exactly when neither holds — so the
three status texts are mutually exclusive and exhaustive. -/
theorem onRenderHeaderTitle_status (bugBash : IBugBash) (currentTime : Nat) :
    (onRenderHeaderTitle bugBash currentTime = BugBashHeaderStatus.Completed ↔
      isBugBashCompleted bugBash currentTime = true) ∧
    (onRenderHeaderTitle bugBash currentTime = BugBashHeaderStatus.InProgress ↔
      (isBugBashCompleted bugBash currentTime = false ∧
       isBugBashInProgress bugBash currentTime = true)) ∧
    (onRenderHeaderTitle bugBash currentTime = BugBashHeaderStatus.Scheduled ↔
      (isBugBashCompleted bugBash currentTime = false ∧
       isBugBashInProgress bugBash currentTime = false)) := by
  cases hc : isBugBashCompleted bugBash currentTime <;>
    cases hp : isBugBashInProgress bugBash currentTime <;>
      simp [onRenderHeaderTitle, hc, hp]

/-- C9: the reducer frame — every action other than `SetActiveWorkItem`
returns the input state (or the default state when the input is undefined)
unchanged, and `SetActiveWorkItem` writes exactly the nine payload fields
while every other field of the state is preserved. -/
theorem activeWorkItemReducer_frame (state : Option IActiveWorkItemState) :
    (∀ tag, activeWorkItemReducer state (ActiveWorkItemActions.OtherActionType tag) =
      state.getD defaultActiveWorkItemState) ∧
    (∀ payload,
      (activeWorkItemReducer state (ActiveWorkItemActions.SetActiveWorkItem payload)).id =
        payload.id ∧
      (activeWorkItemReducer state (ActiveWorkItemActions.SetActiveWorkItem payload)).rev =
        payload.rev ∧
      (activeWorkItemReducer state (ActiveWorkItemActions.SetActiveWorkItem payload)).isNew =
        payload.isNew ∧
      (activeWorkItemReducer state (ActiveWorkItemActions.SetActiveWorkItem payload)).links =
        payload.links ∧
      (activeWorkItemReducer state (ActiveWorkItemActions.SetActiveWorkItem payload)).queryableFields =
        payload.queryableFields ∧
      (activeWorkItemReducer state (ActiveWorkItemActions.SetActiveWorkItem payload)).sortableFields =
        payload.sortableFields ∧
      (activeWorkItemReducer state (ActiveWorkItemActions.SetActiveWorkItem payload)).relationTypes =
        payload.relationTypes ∧
      (activeWorkItemReducer state (ActiveWorkItemActions.SetActiveWorkItem payload)).project =
        payload.project ∧
      (activeWorkItemReducer state (ActiveWorkItemActions.SetActiveWorkItem payload)).workItemTypeName =
        payload.workItemTypeName ∧
      (activeWorkItemReducer state (ActiveWorkItemActions.SetActiveWorkItem payload)).restOfState =
        (state.getD defaultActiveWorkItemState).restOfState) :=
  ⟨fun _ => rfl,
   fun _ => ⟨rfl, rfl, rfl, rfl, rfl, rfl, rfl, rfl, rfl, rfl⟩⟩

/-- C7 counterexample: the claim says a non-work-item, non-`Status` key reads
its value from the bug bash item itself; but for the bug-bash `Title` key on
an accepted item with the promoted work item supplied, the value is the work
item `Title` field, not the item title. -/
theorem computeCellValue_title_counterexample :
    computeCellValue (ColumnKey.bb BugBashItemFieldNames.Title) demoBugBashItem
        (some demoWorkItem) = CellValue.str "promoted work item title" ∧
    computeCellValue (ColumnKey.bb BugBashItemFieldNames.Title) demoBugBashItem
        (some demoWorkItem) ≠
      bugBashItemField demoBugBashItem BugBashItemFieldNames.Title := by
  decide

/-- C7 amended: the cell value comes from the accepted work item fields only
when the item is accepted and the work item is supplied — otherwise a
work-item field key yields `undefined` and a non-work-item, non-`Status` key
reads the bug bash item itself; a non-work-item, non-`Status` key other than
`Title` always reads the bug bash item; the `Title` key on an accepted item
with a supplied work item reads the work item `Title` field; a non-`ID`
work-item field key on an accepted item with a supplied work item reads that
work item field, and the `ID` key reads the item work item id. -/
theorem computeCellValue_sources (key : ColumnKey) (bugBashItem : IBugBashItem)
    (acceptedWorkItem : Option WorkItem) :
    (¬(isBugBashItemAccepted bugBashItem = true ∧ acceptedWorkItem.isSome = true) →
      (∀ f, key = ColumnKey.wi f →
        computeCellValue key bugBashItem acceptedWorkItem = CellValue.undef) ∧
      (∀ f, key = ColumnKey.bb f → f ≠ BugBashItemFieldNames.Status →
        computeCellValue key bugBashItem acceptedWorkItem =
          bugBashItemField bugBashItem f)) ∧
    (∀ f, f ≠ BugBashItemFieldNames.Status → f ≠ BugBashItemFieldNames.Title →
      computeCellValue (ColumnKey.bb f) bugBashItem acceptedWorkItem =
        bugBashItemField bugBashItem f) ∧
    (∀ workItem, isBugBashItemAccepted bugBashItem = true →
      acceptedWorkItem = some workItem →
      computeCellValue (ColumnKey.bb BugBashItemFieldNames.Title) bugBashItem
          acceptedWorkItem =
        workItem.fields WorkItemFieldNames.Title) ∧
    (∀ f workItem, isBugBashItemAccepted bugBashItem = true →
      acceptedWorkItem = some workItem → f ≠ WorkItemFieldNames.ID →
      computeCellValue (ColumnKey.wi f) bugBashItem acceptedWorkItem =
        workItem.fields f) ∧
    (∀ workItem, isBugBashItemAccepted bugBashItem = true →
      acceptedWorkItem = some workItem →
      computeCellValue (ColumnKey.wi WorkItemFieldNames.ID) bugBashItem
          acceptedWorkItem =
        match bugBashItem.workItemId with
        | some workItemId => CellValue.num workItemId
        | none => CellValue.undef) := by
  refine ⟨fun h => ⟨?_, ?_⟩, ?_, ?_, ?_, ?_⟩
  · rintro f rfl
    cases hw : acceptedWorkItem with
    | none => simp [computeCellValue]
    | some workItem =>
        cases hAcc : isBugBashItemAccepted bugBashItem with
        | false => simp [computeCellValue, hAcc]
        | true => exact absurd ⟨hAcc, by simp [hw]⟩ h
  · rintro f rfl hf
    cases hAcc : isBugBashItemAccepted bugBashItem with
    | false => simp [computeCellValue, hAcc, hf]
    | true =>
        cases hw : acceptedWorkItem with
        | none => simp [computeCellValue, hf]
        | some workItem => exact absurd ⟨hAcc, by simp [hw]⟩ h
  · intro f hf ht
    simp [computeCellValue, hf, ht]
  · rintro workItem hAcc rfl
    simp [computeCellValue, hAcc]
  · rintro f workItem hAcc rfl hf
    simp [computeCellValue, hAcc, hf]
  · rintro workItem hAcc rfl
    simp [computeCellValue, hAcc]

/-- C7 witness: on the pending item a work-item key stays undefined; on the
accepted item the `TeamId` key reads the item, the bug-bash `Title` key and
the work-item `Title` key read the work item, and the `ID` key reads the
promoted work item id stored on the item. -/
theorem computeCellValue_sources_witness :
    computeCellValue (ColumnKey.wi WorkItemFieldNames.State) demoPendingItem
        (some demoWorkItem) = CellValue.undef ∧
    computeCellValue (ColumnKey.bb BugBashItemFieldNames.TeamId) demoBugBashItem
        (some demoWorkItem) = CellValue.str "team1" ∧
    computeCellValue (ColumnKey.bb BugBashItemFieldNames.Title) demoBugBashItem
        (some demoWorkItem) = CellValue.str "promoted work item title" ∧
    computeCellValue (ColumnKey.wi WorkItemFieldNames.State) demoBugBashItem
        (some demoWorkItem) = CellValue.str "Active" ∧
    computeCellValue (ColumnKey.wi WorkItemFieldNames.ID) demoBugBashItem
        (some demoWorkItem) = CellValue.num 7 :=
  ⟨((computeCellValue_sources (ColumnKey.wi WorkItemFieldNames.State) demoPendingItem
      (some demoWorkItem)).1 (by decide)).1 WorkItemFieldNames.State rfl,
   ((computeCellValue_sources (ColumnKey.bb BugBashItemFieldNames.TeamId) demoBugBashItem
      (some demoWorkItem)).2.1 BugBashItemFieldNames.TeamId (by decide) (by decide)).trans
     (by decide),
   ((computeCellValue_sources (ColumnKey.bb BugBashItemFieldNames.Title) demoBugBashItem
      (some demoWorkItem)).2.2.1 demoWorkItem (by decide) rfl).trans (by decide),
   ((computeCellValue_sources (ColumnKey.wi WorkItemFieldNames.State) demoBugBashItem
      (some demoWorkItem)).2.2.2.1 WorkItemFieldNames.State demoWorkItem (by decide) rfl
      (by decide)).trans (by decide),
   ((computeCellValue_sources (ColumnKey.wi WorkItemFieldNames.ID) demoBugBashItem
      (some demoWorkItem)).2.2.2.2 demoWorkItem (by decide) rfl).trans (by decide)⟩
